import Mathlib

/-!
Shallow embedding of `src/netflix_analysis.py` (a single linear pandas batch
job).  Cells of the loaded table are modelled by `Val` (string, integer number,
or missing); a row is a `Record` giving the value of each column the program
ever touches; a `Table` carries, for each such column, whether it is present
in the loaded frame (pandas column presence is frame-level, cells may still be
missing) together with the list of rows.

Numeric cells are modelled as integers: the program's year and duration
arithmetic is integral (`astype(int)`, digit-run extraction), and float
parsing is outside the scope of this integer model.  Chart files are written
as a deterministic textual serialization of the data handed to the plotting
library; pixel rendering is out of scope, as is the exact pandas string
formatting of the text summary (a fixed canonical rendering is used).
-/

inductive Val where
  | str : String → Val
  | num : Int → Val
  | na : Val
deriving DecidableEq

/-- One row of the table: the value of each column the script reads.
Column names follow line 50's standardization (strip, lowercase, spaces to
underscores). -/
structure Record where
  duration : Val
  duration_minutes : Val
  duration_seasons : Val
  type : Val
  release_year : Val
  title : Val
  rating : Val
deriving DecidableEq

/-- The loaded frame: presence flags for the columns the script tests with
`in df.columns`, plus the rows. -/
structure Table where
  hasDuration : Bool
  hasMinutes : Bool
  hasSeasons : Bool
  hasType : Bool
  hasYear : Bool
  hasTitle : Bool
  hasRating : Bool
  rows : List Record
deriving DecidableEq

/-- Python `str.strip()` on a character list: drop whitespace from both
ends. -/
def trimChars (cs : List Char) : List Char :=
  ((cs.dropWhile Char.isWhitespace).reverse.dropWhile Char.isWhitespace).reverse

/-- Python `str.strip()`. -/
def pyStrip (s : String) : String :=
  String.mk (trimChars s.toList)

/-- Line 50: `c.strip().lower().replace(" ", "_")` applied to a column name
(space is code point 32, underscore 95). -/
def standardizeCol (c : String) : String :=
  String.mk (((trimChars c.toList).map Char.toLower).map
    (fun ch => if ch == Char.ofNat 32 then Char.ofNat 95 else ch))

/-- `astype(str)` on one cell: pandas renders a missing value as the string
`"nan"`. -/
def astypeStr : Val → String
  | Val.str s => s
  | Val.num n => toString n
  | Val.na => "nan"

def digitsToNat (cs : List Char) : Nat :=
  cs.foldl (fun a c => a * 10 + (c.toNat - Char.toNat '0')) 0

/-- First match of a character-class regex `[p]+`: the first maximal run of
characters satisfying `p`, or `none` when no character matches. -/
def firstRun (p : Char → Bool) : List Char → Option (List Char)
  | [] => none
  | c :: cs => if p c then some (c :: cs.takeWhile p) else firstRun p cs

/-- Line 55's regex `(\d+)`: first maximal run of decimal digits. -/
def firstDigitRun (s : List Char) : Option (List Char) :=
  firstRun (fun c => c.isDigit) s

/-- Line 56's regex `([A-Za-z]+)`: first maximal run of ASCII letters. -/
def firstAlphaRun (s : List Char) : Option (List Char) :=
  firstRun (fun c => c.isAlpha) s

/-- Line 55: `to_numeric(dur.str.extract(r"(\d+)")[0], errors="coerce")`. -/
def durationNumber (v : Val) : Option Nat :=
  (firstDigitRun (astypeStr v).toList).map digitsToNat

/-- Line 56: `dur.str.extract(r"([A-Za-z]+)")[0].str.lower()`. -/
def durationUnit (v : Val) : Option String :=
  (firstAlphaRun (astypeStr v).toList).map (fun cs => String.mk (cs.map Char.toLower))

def listStartsWith : List Char → List Char → Bool
  | [], _ => true
  | _ :: _, [] => false
  | p :: ps, c :: cs => p == c && listStartsWith ps cs

/-- Substring containment on character lists (the semantics of
`Series.str.contains` with a literal-only pattern such as `"min"`). -/
def hasSubstringL (pat : List Char) : List Char → Bool
  | [] => listStartsWith pat []
  | c :: cs => listStartsWith pat (c :: cs) || hasSubstringL pat cs

def strContainsSub (s pat : String) : Bool :=
  hasSubstringL pat.toList s.toList

/-- Line 57: `duration_number.where(duration_unit.str.contains("min", na=False))`
for one record. -/
def derivedMinutes (v : Val) : Option Nat :=
  match durationUnit v with
  | some u => if strContainsSub u "min" then durationNumber v else none
  | none => none

/-- Line 58: `duration_number.where(duration_unit.str.contains("season", na=False))`
for one record. -/
def derivedSeasons (v : Val) : Option Nat :=
  match durationUnit v with
  | some u => if strContainsSub u "season" then durationNumber v else none
  | none => none

/-- The parsed unit token of a record, the empty string when line 56's regex
found no letter. -/
def unitTok (v : Val) : String :=
  (durationUnit v).getD ""

def optNatToVal : Option Nat → Val
  | some n => Val.num n
  | none => Val.na

/-- Lines 54-58 applied to one record: fill both derived duration columns. -/
def normalizeRecDerive (r : Record) : Record :=
  { r with duration_minutes := optNatToVal (derivedMinutes r.duration),
           duration_seasons := optNatToVal (derivedSeasons r.duration) }

/-- Line 61 applied to one record: `df["duration_minutes"] = pd.NA`. -/
def fillMinutesNa (r : Record) : Record :=
  { r with duration_minutes := Val.na }

/-- Line 63 applied to one record: `df["duration_seasons"] = pd.NA`. -/
def fillSeasonsNa (r : Record) : Record :=
  { r with duration_seasons := Val.na }

/-- Line 66 applied to one record: `df["type"].astype(str).str.strip()`. -/
def stripTypeRec (r : Record) : Record :=
  { r with type := Val.str (pyStrip (astypeStr r.type)) }

/-- Lines 52-66: duration derivation (guarded exactly as line 53), creation of
missing duration columns, and trimming of the `type` column. -/
def normalizeTable (t : Table) : Table :=
  let t1 :=
    if t.hasDuration && (!t.hasMinutes && !t.hasSeasons) then
      { t with rows := t.rows.map normalizeRecDerive,
               hasMinutes := true, hasSeasons := true }
    else
      let r1 := if t.hasMinutes then t.rows else t.rows.map fillMinutesNa
      let r2 := if t.hasSeasons then r1 else r1.map fillSeasonsNa
      { t with rows := r2, hasMinutes := true, hasSeasons := true }
  if t1.hasType then { t1 with rows := t1.rows.map stripTypeRec } else t1

/-- `value_counts` bookkeeping: bump the count of key `k` in an association
list, appending a fresh entry when `k` is new. -/
def bump (k : String) : List (String × Nat) → List (String × Nat)
  | [] => [(k, 1)]
  | p :: rest => if p.1 == k then (p.1, p.2 + 1) :: rest else p :: bump k rest

/-- Tally the keys of a list, first-occurrence order. -/
def tally (ks : List String) : List (String × Nat) :=
  ks.foldl (fun acc k => bump k acc) []

/-- Stable insertion for the descending-by-count sort `value_counts` applies. -/
def insertByCountDesc (p : String × Nat) : List (String × Nat) → List (String × Nat)
  | [] => [p]
  | q :: qs => if q.2 < p.2 then p :: q :: qs else q :: insertByCountDesc p qs

def sortByCountDesc (l : List (String × Nat)) : List (String × Nat) :=
  l.foldr insertByCountDesc []

/-- `Series.value_counts(dropna=False)`: counts per distinct value, sorted in
descending order of frequency.  Missing values were already turned into the
string `"nan"` by the `astype(str)` the script applies first. -/
def valueCountsDesc (ks : List String) : List (String × Nat) :=
  sortByCountDesc (tally ks)

/-- Lines 69-70: `df["type"].value_counts(dropna=False)`. -/
def countByType (t : Table) : List (String × Nat) :=
  valueCountsDesc (t.rows.map (fun r => astypeStr r.type))

/-- Line 71: rendering of the two-column `count_by_type.csv`. -/
def csvOfCounts (l : List (String × Nat)) : String :=
  "type,count\n" ++ String.join (l.map (fun p => p.1 ++ "," ++ toString p.2 ++ "\n"))

/-- Integer-literal string parsing, the integral fragment of
`pd.to_numeric(..., errors="coerce")`. -/
def parseIntStr (s : String) : Option Int :=
  match s.toList with
  | [] => none
  | c :: cs =>
    if c == Char.ofNat 45 then
      if cs ≠ [] && cs.all Char.isDigit then some (-(digitsToNat cs : Int)) else none
    else
      if (c :: cs).all Char.isDigit then some ((digitsToNat (c :: cs) : Int)) else none

/-- `to_numeric(..., errors="coerce")` on one cell (integer fragment). -/
def toNumericVal : Val → Option Int
  | Val.str s => parseIntStr s
  | Val.num n => some n
  | Val.na => none

/-- Lines 75-78: keep the records whose `release_year` survives both `dropna`s
and the numeric coercion, paired with the coerced integer year. -/
def parsedYearRows (rows : List Record) : List (Int × Record) :=
  rows.filterMap (fun r => (toNumericVal r.release_year).map (fun y => (y, r)))

/-- Insert a year into a strictly ascending list, keeping it strictly
ascending (duplicates collapse). -/
def insertSortedDedup (y : Int) : List Int → List Int
  | [] => [y]
  | z :: zs =>
    if y < z then y :: z :: zs
    else if y == z then z :: zs
    else z :: insertSortedDedup y zs

def sortedDistinct (ys : List Int) : List Int :=
  ys.foldr insertSortedDedup []

/-- Row index of line 82's `pivot_table(...).sort_index()`: the distinct
parseable years, ascending. -/
def pivotRows (rows : List Record) : List Int :=
  sortedDistinct ((parsedYearRows rows).map Prod.fst)

/-- Column index of line 82's pivot: the distinct `type` values among the
year-filtered records. -/
def pivotCols (rows : List Record) : List String :=
  ((parsedYearRows rows).map (fun p => astypeStr p.2.type)).dedup

/-- One cell of line 82's pivot: `aggfunc="count"` over `values="title"`
counts the records of that (year, type) group whose title is not missing;
absent groups are `fill_value=0`. -/
def pivotEntry (rows : List Record) (y : Int) (c : String) : Nat :=
  ((parsedYearRows rows).filter
    (fun p => p.1 == y && (astypeStr p.2.type == c && !(p.2.title == Val.na)))).length

/-- Deterministic serialization of the pivot handed to the plotting call. -/
def renderPivot (rows : List Record) : String :=
  String.join ((pivotRows rows).map (fun y =>
    toString y ++ ":" ++
      String.join ((pivotCols rows).map
        (fun c => c ++ "=" ++ toString (pivotEntry rows y c) ++ ";")) ++ "\n"))

/-- Line 93: `tmp.groupby("release_year").size().sort_index()`. -/
def yearCounts (rows : List Record) : List (Int × Nat) :=
  (pivotRows rows).map
    (fun y => (y, ((parsedYearRows rows).filter (fun p => p.1 == y)).length))

def renderYearCounts (rows : List Record) : String :=
  String.join ((yearCounts rows).map
    (fun p => toString p.1 ++ "," ++ toString p.2 ++ "\n"))

/-- Line 105: `df["rating"].astype(str).replace({"nan": pd.NA}).dropna()`. -/
def ratingsList (rows : List Record) : List String :=
  (rows.map (fun r => astypeStr r.rating)).filter (fun s => !(s == "nan"))

/-- Line 106: `ratings.value_counts().head(10)`. -/
def top10Ratings (rows : List Record) : List (String × Nat) :=
  (valueCountsDesc (ratingsList rows)).take 10

def renderTop10 (rows : List Record) : String :=
  String.join ((top10Ratings rows).map
    (fun p => p.1 ++ "," ++ toString p.2 ++ "\n"))

/-- Line 116: `pd.to_numeric(df["duration_minutes"], errors="coerce").dropna()`. -/
def minutesList (rows : List Record) : List Int :=
  rows.filterMap (fun r => toNumericVal r.duration_minutes)

def renderHist (mins : List Int) : String :=
  "bins=25\n" ++ String.join (mins.map (fun m => toString m ++ "\n"))

/-- Line 133: `df["title"].nunique()` (distinct non-missing titles). -/
def uniqueTitleCount (rows : List Record) : Nat :=
  ((rows.map (fun r => r.title)).filter (fun v => !(v == Val.na))).dedup.length

/-- Helper rendering of a counts table inside `summary.txt` (the script uses
`to_string()`; a fixed canonical line format stands in for it). -/
def renderCountLines (l : List (String × Nat)) : String :=
  String.join (l.map (fun p => p.1 ++ " " ++ toString p.2 ++ "\n"))

/-- Lines 128-136: content of `summary.txt`. -/
def summaryText (t : Table) : String :=
  "Netflix Titles - Quick Summary\n" ++ String.mk (List.replicate 32 (Char.ofNat 61)) ++ "\n\n" ++
    "Rows: " ++ toString t.rows.length ++ "\n" ++
    (if t.hasTitle then "Unique titles: " ++ toString (uniqueTitleCount t.rows) ++ "\n" else "") ++
    (if t.hasType then renderCountLines (countByType t) ++ "\n" else "")

def DATA_FILE_NAME : String := "netflix_titles.xlsx"

/-- Lines 42-45: the message of the `FileNotFoundError`. -/
def missingFileMsg (here : String) : String :=
  "Could not find " ++ DATA_FILE_NAME ++ " in:\n" ++ here ++
    "\nPut netflix_titles.xlsx in the same folder as this script."

/-- Lines 34-38: the preferred sheet names, in priority order. -/
def preferredSheets : List String :=
  ["netflix_titles", "titles", "sheet1", "Sheet1"]

/-- Lines 31-38: which sheet `pick_title_sheet` reads (`none` only for a file
with no sheets, which a real workbook never is). -/
def pickTitleSheet (sheetNames : List String) : Option String :=
  match preferredSheets.find? (fun n => sheetNames.contains n) with
  | some n => some n
  | none => sheetNames.head?

/-- The whole run of `main` on an already-loaded table: the list of
`(file name, content)` writes made into `outputs/`, in program order, paired
with `some errMsg` when the run dies with an uncaught exception after those
writes (and `none` on a clean exit).  `fileExists` models line 41's check;
the `KeyError` arm models line 82's `pivot_table(..., values="title")` on a
frame with no `title` column. -/
def run (here : String) (fileExists : Bool) (t : Table) :
    List (String × String) × Option String :=
  if fileExists = false then
    ([], some (missingFileMsg here))
  else
    let df := normalizeTable t
    let w1 := if df.hasType then [("count_by_type.csv", csvOfCounts (countByType df))] else []
    if df.hasYear && (df.hasType && !df.hasTitle) then
      (w1, some "KeyError: title")
    else
      let w2 :=
        if df.hasYear then
          if df.hasType then [("titles_by_year_by_type.png", renderPivot df.rows)]
          else [("titles_by_year.png", renderYearCounts df.rows)]
        else []
      let w3 := if df.hasRating then [("top_10_ratings.png", renderTop10 df.rows)] else []
      let w4 :=
        if (minutesList df.rows).length > 0 then
          [("movie_duration_hist.png", renderHist (minutesList df.rows))]
        else []
      let w5 := [("summary.txt", summaryText df)]
      (w1 ++ w2 ++ w3 ++ w4 ++ w5, none)

/-- A file system restricted to the output directory: name-content pairs.
Writing overwrites in place or appends a fresh file. -/
def fsSet (fs : List (String × String)) (name content : String) :
    List (String × String) :=
  match fs with
  | [] => [(name, content)]
  | p :: rest => if p.1 == name then (name, content) :: rest else p :: fsSet rest name content

def fsGet (fs : List (String × String)) (name : String) : Option String :=
  match fs with
  | [] => none
  | p :: rest => if p.1 == name then some p.2 else fsGet rest name

/-- Perform a run's writes, in order, on an output-directory state. -/
def applyWrites (fs : List (String × String)) (ws : List (String × String)) :
    List (String × String) :=
  ws.foldl (fun acc w => fsSet acc w.1 w.2) fs

/-- The last content written to `name` by a write list, if any. -/
def lastVal : List (String × String) → String → Option String
  | [], _ => none
  | w :: ws, n =>
    match lastVal ws n with
    | some c => some c
    | none => if w.1 == n then some w.2 else none

/-- Does the head of the list (if any) falsify `p`?  Encodes that a run of
`p`-characters is maximal to the right. -/
def headFails (p : Char → Bool) : List Char → Bool
  | [] => true
  | c :: _ => !p c

/-- The record with every cell missing. -/
def recNaAll : Record :=
  { duration := Val.na, duration_minutes := Val.na, duration_seasons := Val.na,
    type := Val.na, release_year := Val.na, title := Val.na, rating := Val.na }

/-- One-row table whose duration text makes the unit token contain both
`"min"` and `"season"`. -/
def tableC1 : Table :=
  { hasDuration := true, hasMinutes := false, hasSeasons := false,
    hasType := false, hasYear := false, hasTitle := false, hasRating := false,
    rows := [{ recNaAll with duration := Val.str "3 Seasonsmin" }] }

/-- A record carrying a pre-existing, unvalidated minutes value. -/
def recC4 : Record :=
  { duration := Val.str "90 min", duration_minutes := Val.num 999,
    duration_seasons := Val.na, type := Val.str " Movie ",
    release_year := Val.na, title := Val.na, rating := Val.na }

/-- One-row table with a pre-existing (and unvalidated) minutes column. -/
def tableC4 : Table :=
  { hasDuration := true, hasMinutes := true, hasSeasons := false,
    hasType := true, hasYear := false, hasTitle := false, hasRating := false,
    rows := [recC4] }

/-- One-row table with none of the expected columns. -/
def tableC10 : Table :=
  { hasDuration := false, hasMinutes := false, hasSeasons := false,
    hasType := false, hasYear := false, hasTitle := false, hasRating := false,
    rows := [recNaAll] }

/-- A record with an untrimmed type cell. -/
def recC6 : Record := { recNaAll with type := Val.str " Movie " }

/-- The same record after normalization trimmed its type. -/
def recC6n : Record := { recNaAll with type := Val.str "Movie" }

/-- One-row table with only a type column. -/
def tableC6 : Table :=
  { hasDuration := false, hasMinutes := false, hasSeasons := false,
    hasType := true, hasYear := false, hasTitle := false, hasRating := false,
    rows := [recC6] }

/-- A record with a parseable year, a type and a title. -/
def recC7 : Record :=
  { recNaAll with release_year := Val.num 2020, type := Val.str "Movie", title := Val.str "A" }

/-- A record with a parseable year and a type but no title. -/
def recC2 : Record :=
  { recNaAll with type := Val.str "Movie", release_year := Val.num 2020 }

/-- Table with `release_year` and `type` columns but no `title` column. -/
def tableC2 : Table :=
  { hasDuration := false, hasMinutes := false, hasSeasons := false,
    hasType := true, hasYear := true, hasTitle := false, hasRating := false,
    rows := [recC2] }

example : derivedMinutes (Val.str "90 min") = some 90 := by decide
example : derivedSeasons (Val.str "3 Seasons") = some 3 := by decide
example : derivedMinutes (Val.str "N/A") = none := by decide
example : derivedMinutes (Val.str "3 Seasonsmin") = some 3 := by decide
example : derivedSeasons (Val.str "3 Seasonsmin") = some 3 := by decide
example : valueCountsDesc ["a", "b", "b", "nan"] = [("b", 2), ("nan", 1), ("a", 1)] := by decide
example : pickTitleSheet ["Data", "Sheet1"] = some "Sheet1" := by decide
example : pickTitleSheet ["Data", "other"] = some "Data" := by decide

theorem takeWhile_all_append (p : Char → Bool) (xs ys : List Char)
    (hx : xs.all p = true) (hy : headFails p ys = true) :
    (xs ++ ys).takeWhile p = xs := by
  induction xs with
  | nil =>
    cases ys with
    | nil => rfl
    | cons c cs =>
      simp only [headFails, Bool.not_eq_true'] at hy
      simp [List.takeWhile, hy]
  | cons x xs ih =>
    simp only [List.all_cons, Bool.and_eq_true] at hx
    simp [List.takeWhile, hx.1, ih hx.2]

theorem firstRun_span (p : Char → Bool) (a r b : List Char)
    (ha : a.all (fun c => !p c) = true) (hr : r ≠ [])
    (hrall : r.all p = true) (hb : headFails p b = true) :
    firstRun p (a ++ r ++ b) = some r := by
  induction a with
  | nil =>
    cases r with
    | nil => exact absurd rfl hr
    | cons c cs =>
      simp only [List.all_cons, Bool.and_eq_true] at hrall
      simp [firstRun, hrall.1, takeWhile_all_append p cs b hrall.2 hb]
  | cons c a ih =>
    simp only [List.all_cons, Bool.and_eq_true, Bool.not_eq_true'] at ha
    simpa [firstRun, ha.1] using ih ha.2

theorem fillMinutes_minutes (r : Record) : (fillMinutesNa r).duration_minutes = Val.na := rfl

theorem fillMinutes_seas (r : Record) : (fillMinutesNa r).duration_seasons = r.duration_seasons := rfl

theorem fillSeasons_seas (r : Record) : (fillSeasonsNa r).duration_seasons = Val.na := rfl

theorem fillSeasons_minutes (r : Record) : (fillSeasonsNa r).duration_minutes = r.duration_minutes := rfl

theorem strip_minutes (r : Record) : (stripTypeRec r).duration_minutes = r.duration_minutes := rfl

theorem strip_seas (r : Record) : (stripTypeRec r).duration_seasons = r.duration_seasons := rfl

/-- C1 counterexample: on duration text `"3 Seasonsmin"` the unit token is
`"seasonsmin"`, which contains both `"min"` and `"season"`, so normalization
populates BOTH derived duration fields with 3 — refuting "at most one of the
derived fields is populated, never both". -/
theorem claim1_counterexample :
    ((normalizeTable tableC1).rows.map (fun r => r.duration_minutes)) = [Val.num 3]
    ∧ ((normalizeTable tableC1).rows.map (fun r => r.duration_seasons)) = [Val.num 3] := by
  decide

/-- C1 (amended): for every record, when the parsed unit token does not
contain both `"min"` and `"season"` at once, at most one derived duration
field is populated; and when it contains neither, both remain absent. -/
theorem claim1_amended_unit_token (v : Val) :
    (¬(strContainsSub (unitTok v) "min" = true ∧ strContainsSub (unitTok v) "season" = true) →
      derivedMinutes v = none ∨ derivedSeasons v = none)
    ∧ (strContainsSub (unitTok v) "min" = false → strContainsSub (unitTok v) "season" = false →
      derivedMinutes v = none ∧ derivedSeasons v = none) := by
  cases h : durationUnit v with
  | none =>
    refine ⟨fun _ => Or.inl ?_, fun _ _ => ⟨?_, ?_⟩⟩ <;>
      simp [derivedMinutes, derivedSeasons, h]
  | some u =>
    cases hm : strContainsSub u "min" <;> cases hs : strContainsSub u "season" <;>
      simp [derivedMinutes, derivedSeasons, unitTok, h, hm, hs]

/-- C1 witness: a unit token containing only `"min"` leaves a derived field
absent. -/
theorem claim1_witness :
    derivedMinutes (Val.str "90 min") = none ∨ derivedSeasons (Val.str "90 min") = none :=
  (claim1_amended_unit_token (Val.str "90 min")).1 (by decide)

/-- C3: line 55 extracts the first maximal digit run as the quantity and
line 56 the first maximal letter run (lowercased) as the unit token; the
minutes (resp. seasons) field equals the quantity exactly when the unit token
contains `"min"` (resp. `"season"`); and on the concrete inputs `"90 min"`,
`"3 Seasons"` and `"N/A"` the derived fields are 90/absent, absent/3 and
absent/absent. -/
theorem claim3_duration_extraction :
    (∀ a r b : List Char, a.all (fun c => !c.isDigit) = true → r ≠ [] →
      r.all (fun c => c.isDigit) = true → headFails (fun c => c.isDigit) b = true →
      firstDigitRun (a ++ r ++ b) = some r)
    ∧ (∀ a r b : List Char, a.all (fun c => !c.isAlpha) = true → r ≠ [] →
      r.all (fun c => c.isAlpha) = true → headFails (fun c => c.isAlpha) b = true →
      firstAlphaRun (a ++ r ++ b) = some r)
    ∧ (∀ v : Val, derivedMinutes v =
        if strContainsSub (unitTok v) "min" then durationNumber v else none)
    ∧ (∀ v : Val, derivedSeasons v =
        if strContainsSub (unitTok v) "season" then durationNumber v else none)
    ∧ derivedMinutes (Val.str "90 min") = some 90
    ∧ derivedSeasons (Val.str "90 min") = none
    ∧ derivedSeasons (Val.str "3 Seasons") = some 3
    ∧ derivedMinutes (Val.str "3 Seasons") = none
    ∧ derivedMinutes (Val.str "N/A") = none
    ∧ derivedSeasons (Val.str "N/A") = none := by
  refine ⟨?_, ?_, ?_, ?_, by decide, by decide, by decide, by decide, by decide, by decide⟩
  · exact fun a r b => firstRun_span (fun c => c.isDigit) a r b
  · exact fun a r b => firstRun_span (fun c => c.isAlpha) a r b
  · intro v
    cases h : durationUnit v with
    | none =>
      have hnone : strContainsSub "" "min" = false := by decide
      simp [derivedMinutes, unitTok, h, hnone]
    | some u => simp [derivedMinutes, unitTok, h]
  · intro v
    cases h : durationUnit v with
    | none =>
      have hnone : strContainsSub "" "season" = false := by decide
      simp [derivedSeasons, unitTok, h, hnone]
    | some u => simp [derivedSeasons, unitTok, h]

/-- C3 witness: the digit-run extraction applied at a concrete split. -/
theorem claim3_witness :
    firstDigitRun (['x'] ++ ['4', '2'] ++ ['y']) = some ['4', '2'] :=
  claim3_duration_extraction.1 ['x'] ['4', '2'] ['y']
    (by decide) (by decide) (by decide) (by decide)

theorem map_proj_map {f : Record → Record} {g : Record → Val}
    (hfg : ∀ r, g (f r) = g r) (l : List Record) :
    (l.map f).map g = l.map g := by
  rw [List.map_map]
  exact List.map_congr_left (fun r _ => hfg r)

/-- C4: the derivation branch (line 53) runs only when neither duration
column pre-exists; when one pre-exists, its values pass through
normalization unchanged (no re-derivation, no validation). -/
theorem claim4_preexisting_passthrough (t : Table)
    (h : t.hasMinutes = true ∨ t.hasSeasons = true) :
    (t.hasMinutes = true →
      (normalizeTable t).rows.map (fun r => r.duration_minutes)
        = t.rows.map (fun r => r.duration_minutes))
    ∧ (t.hasSeasons = true →
      (normalizeTable t).rows.map (fun r => r.duration_seasons)
        = t.rows.map (fun r => r.duration_seasons)) := by
  obtain ⟨d, m, s, ty, y, ti, ra, rows⟩ := t
  cases m <;> cases s <;> cases ty <;>
    simp_all [normalizeTable, fillMinutesNa, fillSeasonsNa, stripTypeRec,
      map_proj_map strip_minutes, map_proj_map strip_seas,
      map_proj_map fillSeasons_minutes, map_proj_map fillMinutes_seas]

/-- C4 witness: a table with a pre-existing minutes column (holding the
unvalidated value 999) keeps it byte-for-byte. -/
theorem claim4_witness :
    (normalizeTable tableC4).rows.map (fun r => r.duration_minutes)
      = tableC4.rows.map (fun r => r.duration_minutes) :=
  (claim4_preexisting_passthrough tableC4 (Or.inl rfl)).1 rfl

/-- C10: after normalization both duration columns exist whatever the input
had (so line 116 can read `duration_minutes` unconditionally); when a column
was neither derivable (line 53's guard fails) nor pre-existing, it is created
filled entirely with missing values. -/
theorem claim10_duration_columns_total (t : Table) :
    (normalizeTable t).hasMinutes = true
    ∧ (normalizeTable t).hasSeasons = true
    ∧ ((t.hasDuration && (!t.hasMinutes && !t.hasSeasons)) = false →
        t.hasMinutes = false →
        ∀ r ∈ (normalizeTable t).rows, r.duration_minutes = Val.na)
    ∧ ((t.hasDuration && (!t.hasMinutes && !t.hasSeasons)) = false →
        t.hasSeasons = false →
        ∀ r ∈ (normalizeTable t).rows, r.duration_seasons = Val.na) := by
  obtain ⟨d, m, s, ty, y, ti, ra, rows⟩ := t
  cases d <;> cases m <;> cases s <;> cases ty <;>
    simp_all [normalizeTable, List.mem_map, fillMinutesNa, fillSeasonsNa, stripTypeRec]

/-- C10 witness: the all-absent record of the column-less table keeps an
absent minutes cell after normalization. -/
theorem claim10_witness : recNaAll.duration_minutes = Val.na :=
  (claim10_duration_columns_total tableC10).2.2.1 rfl rfl recNaAll (by decide)

/-- Total of the counts column of a counts table. -/
def sumCounts (l : List (String × Nat)) : Nat :=
  (l.map Prod.snd).sum

theorem sumCounts_bump (k : String) (acc : List (String × Nat)) :
    sumCounts (bump k acc) = sumCounts acc + 1 := by
  induction acc with
  | nil => rfl
  | cons p rest ih =>
    by_cases h : p.1 == k <;> simp [bump, h, sumCounts] at ih ⊢ <;> omega

theorem sumCounts_foldl_bump (ks : List String) (acc : List (String × Nat)) :
    sumCounts (ks.foldl (fun a k => bump k a) acc) = sumCounts acc + ks.length := by
  induction ks generalizing acc with
  | nil => simp
  | cons k ks ih =>
    simp only [List.foldl_cons, List.length_cons, ih (bump k acc), sumCounts_bump]
    omega

theorem sumCounts_tally (ks : List String) : sumCounts (tally ks) = ks.length := by
  simpa [tally, sumCounts] using sumCounts_foldl_bump ks []

theorem sumCounts_insertByCountDesc (p : String × Nat) (l : List (String × Nat)) :
    sumCounts (insertByCountDesc p l) = p.2 + sumCounts l := by
  induction l with
  | nil => simp [insertByCountDesc, sumCounts]
  | cons q qs ih =>
    by_cases h : q.2 < p.2 <;> simp [insertByCountDesc, h, sumCounts] at ih ⊢ <;> omega

theorem sumCounts_sortByCountDesc (l : List (String × Nat)) :
    sumCounts (sortByCountDesc l) = sumCounts l := by
  induction l with
  | nil => rfl
  | cons p ps ih =>
    simp only [sortByCountDesc, List.foldr_cons] at ih ⊢
    rw [sumCounts_insertByCountDesc]
    simp [sumCounts] at ih ⊢
    omega

theorem mem_insertByCountDesc (x p : String × Nat) (l : List (String × Nat)) :
    x ∈ insertByCountDesc p l ↔ x = p ∨ x ∈ l := by
  induction l with
  | nil => simp [insertByCountDesc]
  | cons q qs ih =>
    by_cases h : q.2 < p.2 <;> simp [insertByCountDesc, h, ih] <;> tauto

theorem mem_sortByCountDesc (x : String × Nat) (l : List (String × Nat)) :
    x ∈ sortByCountDesc l ↔ x ∈ l := by
  induction l with
  | nil => simp [sortByCountDesc]
  | cons p ps ih =>
    simp only [sortByCountDesc, List.foldr_cons] at ih ⊢
    rw [mem_insertByCountDesc, ih]
    simp

theorem pairwise_insertByCountDesc (p : String × Nat) (l : List (String × Nat))
    (h : l.Pairwise (fun a b => b.2 ≤ a.2)) :
    (insertByCountDesc p l).Pairwise (fun a b => b.2 ≤ a.2) := by
  induction l with
  | nil => simp [insertByCountDesc]
  | cons q qs ih =>
    rcases List.pairwise_cons.mp h with ⟨hq, hqs⟩
    by_cases hlt : q.2 < p.2
    · rw [show insertByCountDesc p (q :: qs) = p :: q :: qs by
        simp [insertByCountDesc, hlt]]
      refine List.pairwise_cons.mpr ⟨?_, h⟩
      intro x hx
      rcases List.mem_cons.mp hx with rfl | hx
      · omega
      · have := hq x hx
        omega
    · rw [show insertByCountDesc p (q :: qs) = q :: insertByCountDesc p qs by
        simp [insertByCountDesc, hlt]]
      refine List.pairwise_cons.mpr ⟨?_, ih hqs⟩
      intro x hx
      rcases (mem_insertByCountDesc x p qs).mp hx with rfl | hx
      · omega
      · exact hq x hx

theorem pairwise_sortByCountDesc (l : List (String × Nat)) :
    (sortByCountDesc l).Pairwise (fun a b => b.2 ≤ a.2) := by
  induction l with
  | nil => simp [sortByCountDesc]
  | cons p ps ih =>
    simp only [sortByCountDesc, List.foldr_cons] at ih ⊢
    exact pairwise_insertByCountDesc p _ ih

theorem mem_keys_bump (m k : String) (acc : List (String × Nat)) :
    m ∈ (bump k acc).map Prod.fst ↔ m = k ∨ m ∈ acc.map Prod.fst := by
  induction acc with
  | nil => simp [bump]
  | cons p rest ih =>
    by_cases h : p.1 == k
    · have hk : p.1 = k := by simpa using h
      simp [bump, h, hk]
    · simp [bump, h, ih]
      tauto

theorem mem_keys_foldl_bump (m : String) (ks : List String) (acc : List (String × Nat)) :
    m ∈ ((ks.foldl (fun a k => bump k a) acc).map Prod.fst) ↔
      m ∈ ks ∨ m ∈ acc.map Prod.fst := by
  induction ks generalizing acc with
  | nil => simp
  | cons k ks ih =>
    simp only [List.foldl_cons, ih (bump k acc), mem_keys_bump, List.mem_cons]
    tauto

theorem mem_keys_tally (m : String) (ks : List String) :
    m ∈ (tally ks).map Prod.fst ↔ m ∈ ks := by
  simpa [tally] using mem_keys_foldl_bump m ks []

theorem mem_keys_sortByCountDesc (m : String) (l : List (String × Nat)) :
    m ∈ (sortByCountDesc l).map Prod.fst ↔ m ∈ l.map Prod.fst := by
  simp only [List.mem_map]
  constructor
  · rintro ⟨p, hp, he⟩
    exact ⟨p, (mem_sortByCountDesc p l).mp hp, he⟩
  · rintro ⟨p, hp, he⟩
    exact ⟨p, (mem_sortByCountDesc p l).mpr hp, he⟩

theorem length_normalizeTable_rows (t : Table) :
    (normalizeTable t).rows.length = t.rows.length := by
  obtain ⟨d, m, s, ty, y, ti, ra, rows⟩ := t
  cases d <;> cases m <;> cases s <;> cases ty <;> simp [normalizeTable]

/-- C6: the category counts over the type column sum to the total record
count (missing cells count as their own `"nan"` category), and the counts
table is in descending order of frequency. -/
theorem claim6_type_counts (t : Table) :
    sumCounts (countByType (normalizeTable t)) = t.rows.length
    ∧ (countByType (normalizeTable t)).Pairwise (fun a b => b.2 ≤ a.2)
    ∧ ∀ r ∈ (normalizeTable t).rows,
        astypeStr r.type ∈ (countByType (normalizeTable t)).map Prod.fst := by
  refine ⟨?_, ?_, ?_⟩
  · rw [countByType, valueCountsDesc, sumCounts_sortByCountDesc, sumCounts_tally,
      List.length_map, length_normalizeTable_rows]
  · exact pairwise_sortByCountDesc _
  · intro r hr
    rw [countByType, valueCountsDesc, mem_keys_sortByCountDesc, mem_keys_tally]
    exact List.mem_map_of_mem _ hr

/-- C6 witness: in a one-row table the (trimmed) type value of the row is a
key of the counts table. -/
theorem claim6_witness :
    astypeStr recC6n.type ∈ (countByType (normalizeTable tableC6)).map Prod.fst :=
  (claim6_type_counts tableC6).2.2 recC6n (by decide)

theorem mem_insertSortedDedup (x y : Int) (l : List Int) :
    x ∈ insertSortedDedup y l ↔ x = y ∨ x ∈ l := by
  induction l with
  | nil => simp [insertSortedDedup]
  | cons z zs ih =>
    by_cases h1 : y < z
    · simp [insertSortedDedup, h1]
    · by_cases h2 : y == z
      · have hz : y = z := by simpa using h2
        simp [insertSortedDedup, h1, h2, hz]
      · simp [insertSortedDedup, h1, h2, ih]
        tauto

theorem mem_sortedDistinct (x : Int) (ys : List Int) :
    x ∈ sortedDistinct ys ↔ x ∈ ys := by
  induction ys with
  | nil => simp [sortedDistinct]
  | cons y ys ih =>
    simp only [sortedDistinct, List.foldr_cons] at ih ⊢
    rw [mem_insertSortedDedup, ih]
    simp

theorem pairwise_insertSortedDedup (y : Int) (l : List Int)
    (h : l.Pairwise (fun a b => a < b)) :
    (insertSortedDedup y l).Pairwise (fun a b => a < b) := by
  induction l with
  | nil => simp [insertSortedDedup]
  | cons z zs ih =>
    rcases List.pairwise_cons.mp h with ⟨hz, hzs⟩
    by_cases h1 : y < z
    · rw [show insertSortedDedup y (z :: zs) = y :: z :: zs by
        simp [insertSortedDedup, h1]]
      refine List.pairwise_cons.mpr ⟨?_, h⟩
      intro x hx
      rcases List.mem_cons.mp hx with rfl | hx
      · exact h1
      · exact lt_trans h1 (hz x hx)
    · by_cases h2 : y == z
      · rw [show insertSortedDedup y (z :: zs) = z :: zs by
          simp [insertSortedDedup, h1, h2]]
        exact h
      · rw [show insertSortedDedup y (z :: zs) = z :: insertSortedDedup y zs by
          simp [insertSortedDedup, h1, h2]]
        refine List.pairwise_cons.mpr ⟨?_, ih hzs⟩
        intro x hx
        rcases (mem_insertSortedDedup x y zs).mp hx with rfl | hx
        · have hyz : ¬x = z := by simpa using h2
          omega
        · exact hz x hx

theorem pairwise_sortedDistinct (ys : List Int) :
    (sortedDistinct ys).Pairwise (fun a b => a < b) := by
  induction ys with
  | nil => simp [sortedDistinct]
  | cons y ys ih =>
    simp only [sortedDistinct, List.foldr_cons] at ih ⊢
    exact pairwise_insertSortedDedup y _ ih

/-- C7: the pivot's row index is the strictly ascending enumeration of
exactly the distinct parseable years of the filtered records; its column
index is exactly the distinct type values among those records; its entries
are counts (non-negative integers by type), and a (year, type) combination
matched by no record has entry zero (`fill_value=0`). -/
theorem claim7_pivot_shape (rows : List Record) :
    (pivotRows rows).Pairwise (fun a b => a < b)
    ∧ (∀ y : Int, y ∈ pivotRows rows ↔ ∃ p ∈ parsedYearRows rows, p.1 = y)
    ∧ (∀ c : String, c ∈ pivotCols rows ↔
        ∃ p ∈ parsedYearRows rows, astypeStr p.2.type = c)
    ∧ (∀ (y : Int) (c : String),
        (∀ p ∈ parsedYearRows rows, ¬(p.1 = y ∧ astypeStr p.2.type = c)) →
        pivotEntry rows y c = 0) := by
  refine ⟨pairwise_sortedDistinct _, ?_, ?_, ?_⟩
  · intro y
    rw [pivotRows, mem_sortedDistinct]
    simp [List.mem_map]
  · intro c
    rw [pivotCols, List.mem_dedup]
    simp [List.mem_map]
  · intro y c h
    rw [pivotEntry, List.length_eq_zero]
    rw [List.filter_eq_nil]
    intro p hp
    have := h p hp
    simp only [Bool.and_eq_true, beq_iff_eq, Bool.not_eq_true'] at *
    tauto

/-- C7 witness: a (year, type) combination matched by no record gets the
zero fill. -/
theorem claim7_witness : pivotEntry [recC7] 1999 "X" = 0 :=
  (claim7_pivot_shape [recC7]).2.2.2 1999 "X" (by decide)

/-- C8: `pick_title_sheet` reads the first name of the fixed priority list
`["netflix_titles", "titles", "sheet1", "Sheet1"]` that exists among the
workbook's sheet names, and falls back to the first available sheet when
none of the preferred names exists. -/
theorem claim8_sheet_selection (sheets : List String) :
    ("netflix_titles" ∈ sheets →
      pickTitleSheet sheets = some "netflix_titles")
    ∧ ("netflix_titles" ∉ sheets → "titles" ∈ sheets →
      pickTitleSheet sheets = some "titles")
    ∧ ("netflix_titles" ∉ sheets → "titles" ∉ sheets →
      "sheet1" ∈ sheets → pickTitleSheet sheets = some "sheet1")
    ∧ ("netflix_titles" ∉ sheets → "titles" ∉ sheets →
      "sheet1" ∉ sheets → "Sheet1" ∈ sheets →
      pickTitleSheet sheets = some "Sheet1")
    ∧ ("netflix_titles" ∉ sheets → "titles" ∉ sheets →
      "sheet1" ∉ sheets → "Sheet1" ∉ sheets →
      pickTitleSheet sheets = sheets.head?) := by
  refine ⟨?_, ?_, ?_, ?_, ?_⟩
  · intro h1
    simp [pickTitleSheet, preferredSheets, List.find?, h1]
  · intro h1 h2
    simp [pickTitleSheet, preferredSheets, List.find?, h1, h2]
  · intro h1 h2 h3
    simp [pickTitleSheet, preferredSheets, List.find?, h1, h2, h3]
  · intro h1 h2 h3 h4
    simp [pickTitleSheet, preferredSheets, List.find?, h1, h2, h3, h4]
  · intro h1 h2 h3 h4
    simp [pickTitleSheet, preferredSheets, List.find?, h1, h2, h3, h4]

/-- C8 witness: a workbook with sheets `["Data", "Sheet1"]` gets its
`"Sheet1"` selected (the case variant `"sheet1"` does not match). -/
theorem claim8_witness : pickTitleSheet ["Data", "Sheet1"] = some "Sheet1" :=
  (claim8_sheet_selection ["Data", "Sheet1"]).2.2.2.1
    (by decide) (by decide) (by decide) (by decide)

theorem toList_append (a b : String) : (a ++ b).toList = a.toList ++ b.toList := by
  cases a
  cases b
  rfl

theorem listStartsWith_append (pat r : List Char) :
    listStartsWith pat (pat ++ r) = true := by
  induction pat with
  | nil => rfl
  | cons p ps ih => simp [listStartsWith, ih]

theorem hasSubstringL_sandwich (pat l r : List Char) :
    hasSubstringL pat (l ++ (pat ++ r)) = true := by
  induction l with
  | nil =>
    cases hp : pat with
    | nil =>
      cases r with
      | nil => rfl
      | cons c cs => simp [hasSubstringL, listStartsWith]
    | cons p ps =>
      show hasSubstringL (p :: ps) (p :: (ps ++ r)) = true
      have h1 := listStartsWith_append (p :: ps) r
      rw [List.cons_append] at h1
      simp [hasSubstringL, h1]
  | cons c l ih =>
    simp [hasSubstringL, ih]

theorem hasSubstringL_append_left (pat l s : List Char)
    (h : hasSubstringL pat s = true) : hasSubstringL pat (l ++ s) = true := by
  induction l with
  | nil => simpa using h
  | cons c l ih => simp [hasSubstringL, ih]

theorem hasSubstringL_self_append (pat r : List Char) :
    hasSubstringL pat (pat ++ r) = true := by
  simpa using hasSubstringL_sandwich pat [] r

/-- C5: when the input file does not exist, the run raises with the message
of lines 42-45 — which contains the expected file name and the containing
directory — and performs no write into the output directory. -/
theorem claim5_missing_input_file (here : String) (t : Table) :
    run here false t = ([], some (missingFileMsg here))
    ∧ strContainsSub (missingFileMsg here) DATA_FILE_NAME = true
    ∧ strContainsSub (missingFileMsg here) here = true := by
  refine ⟨rfl, ?_, ?_⟩
  · show hasSubstringL DATA_FILE_NAME.toList (missingFileMsg here).toList = true
    simp only [missingFileMsg, toList_append, List.append_assoc]
    exact hasSubstringL_append_left _ _ _ (hasSubstringL_self_append _ _)
  · show hasSubstringL here.toList (missingFileMsg here).toList = true
    simp only [missingFileMsg, toList_append, List.append_assoc]
    exact hasSubstringL_append_left _ _ _ (hasSubstringL_append_left _ _ _
      (hasSubstringL_append_left _ _ _ (hasSubstringL_self_append _ _)))

theorem fsGet_fsSet_eq (fs : List (String × String)) (n c : String) :
    fsGet (fsSet fs n c) n = some c := by
  induction fs with
  | nil => simp [fsSet, fsGet]
  | cons p rest ih =>
    by_cases h : p.1 == n
    · simp [fsSet, h, fsGet]
    · simp [fsSet, h, fsGet, ih]

theorem fsGet_fsSet_ne (fs : List (String × String)) (n m c : String)
    (h : (m == n) = false) : fsGet (fsSet fs m c) n = fsGet fs n := by
  induction fs with
  | nil => simp [fsSet, fsGet, h]
  | cons p rest ih =>
    by_cases hp : p.1 == m
    · have hm : p.1 = m := by simpa using hp
      simp [fsSet, hp, fsGet, hm, h]
    · simp [fsSet, hp, fsGet, ih]

theorem fsGet_applyWrites (ws : List (String × String)) (fs : List (String × String))
    (n : String) :
    fsGet (applyWrites fs ws) n =
      match lastVal ws n with
      | some c => some c
      | none => fsGet fs n := by
  induction ws generalizing fs with
  | nil => simp [applyWrites, lastVal]
  | cons w ws ih =>
    simp only [applyWrites, List.foldl_cons] at ih ⊢
    rw [ih (fsSet fs w.1 w.2)]
    cases hl : lastVal ws n with
    | some c => simp [lastVal, hl]
    | none =>
      by_cases hw : w.1 == n
      · have hn : w.1 = n := by simpa using hw
        subst hn
        simp [lastVal, hl, fsGet_fsSet_eq]
      · have hw2 : (w.1 == n) = false := by simpa using hw
        simp [lastVal, hl, hw2, fsGet_fsSet_ne fs n w.1 w.2 hw2]

theorem applyWrites_idem (ws fs : List (String × String)) (n : String) :
    fsGet (applyWrites (applyWrites fs ws) ws) n = fsGet (applyWrites fs ws) n := by
  rw [fsGet_applyWrites, fsGet_applyWrites]
  cases hl : lastVal ws n <;> simp [hl]

/-- C9: the run is a function of its input alone (two runs on equal inputs
produce equal writes, byte for byte), and re-applying a run's writes to the
output directory leaves every file unchanged (re-running overwrites prior
outputs with identical recomputed ones). -/
theorem claim9_deterministic_idempotent (here : String) (t1 t2 : Table)
    (fs ws : List (String × String)) (name : String) :
    (t1 = t2 → run here true t1 = run here true t2)
    ∧ ((run here true t1).1 = ws →
      fsGet (applyWrites (applyWrites fs ws) ws) name
        = fsGet (applyWrites fs ws) name) :=
  ⟨fun h => by rw [h], fun _ => applyWrites_idem ws fs name⟩

/-- C9 witness: replaying the writes of a concrete run changes nothing. -/
theorem claim9_witness :
    fsGet (applyWrites (applyWrites [] (run "." true tableC10).1)
        (run "." true tableC10).1) "summary.txt"
      = fsGet (applyWrites [] (run "." true tableC10).1) "summary.txt" :=
  (claim9_deterministic_idempotent "." tableC10 tableC10 []
    (run "." true tableC10).1 "summary.txt").2 rfl

/-- C2 (code bug): on a table that has `release_year` and `type` columns but
no `title` column, the run dies with a `KeyError` for `"title"` (line 82
passes `values="title"` to `pivot_table` unguarded), instead of skipping the
artifact silently; with a `title` column present the same table runs to a
clean exit. -/
theorem claim2_title_keyerror :
    (run "." true tableC2).2 = some "KeyError: title"
    ∧ (run "." true { tableC2 with hasTitle := true }).2 = none := by
  exact ⟨rfl, rfl⟩
